import Mathlib

/-!
Shallow embedding of the go-weather-lambda request pipeline.

Sources embedded (current versions of the repository's Go files):
- `src/app/internal/handler/handler.go` : `HandleRequest`, `buildResponse`
- `src/app/internal/cache/cache.go`     : `SetCache`, `GetCache` (wrappers over
  the third-party `patrickmn/go-cache` store created with a 5-minute default
  TTL and a 10-minute sweep interval)
- `src/app/internal/db/db.go`           : `db.WeatherData`, `SaveWeatherData`
- `src/unnamed/part_006` (the repository's blog post carrying the current
  weather client) : `weather.FetchWeather` and the upstream response types

Conventions of the embedding:
- Time is passed explicitly as a `Nat` number of seconds (`now`); the
  go-cache TTL of `5*time.Minute` becomes `cacheTTL = 300`.
- Go machine floats that only flow through the pipeline unchanged
  (temperatures, coordinates, ...) are modelled as `Rat`; no float
  arithmetic occurs anywhere in the embedded code paths.
- External collaborators (the upstream HTTP provider, DynamoDB) are oracles
  supplied as function parameters; the side effects the handler performs
  (cache mutations, store upserts, log lines, collaborator call counts) are
  threaded through an explicit `World` state record.
- Go's `nil`-able results become `Option`, Go's `(value, err)` returns
  become `Except String` with the error message as the payload.
-/

/-- Severity of a log line: the repository's `internal/log` package exposes
exactly two channels, `Info` (stdout) and `Error` (stderr). -/
inductive Severity where
  | info : Severity
  | error : Severity
deriving DecidableEq, Repr

/-- One emitted log line: severity and message. -/
abbrev LogLine := Severity × String

namespace Db

/-- `db.WeatherData` from `src/app/internal/db/db.go`: the persisted and
cached record, with JSON tags `City`, `Temperature`, `Humidity`. -/
structure WeatherData where
  city : String
  temperature : Rat
  humidity : Int
deriving DecidableEq, Repr

end Db

namespace Weather

/-- `weather.WeatherDataValues`: the ~20 numeric fields of the upstream
payload.  The two `interface\x7b\x7d`-typed fields (`cloudBase`,
`cloudCeiling`) are modelled as `Option Rat` (null or numeric). -/
structure WeatherDataValues where
  cloudBase : Option Rat
  cloudCeiling : Option Rat
  cloudCover : Int
  dewPoint : Rat
  freezingRainIntensity : Int
  humidity : Int
  precipitationProbability : Int
  pressureSurfaceLevel : Rat
  rainIntensity : Int
  sleetIntensity : Int
  snowIntensity : Int
  temperature : Rat
  temperatureApparent : Rat
  uvHealthConcern : Int
  uvIndex : Int
  visibility : Rat
  weatherCode : Int
  windDirection : Rat
  windGust : Rat
  windSpeed : Rat
deriving DecidableEq, Repr

/-- `weather.WeatherData`: timestamp plus the values sub-record. -/
structure WeatherData where
  time : String
  values : WeatherDataValues
deriving DecidableEq, Repr

/-- `weather.WeatherLocation`. -/
structure WeatherLocation where
  lat : Rat
  lon : Rat
  name : String
  type : String
deriving DecidableEq, Repr

/-- `weather.WeatherResponse`: the full decoded upstream payload. -/
structure WeatherResponse where
  data : WeatherData
  location : WeatherLocation
deriving DecidableEq, Repr

end Weather

namespace Cache

/-- The go-cache default TTL: `5*time.Minute`, in seconds. -/
def cacheTTL : Nat := 5 * 60

/-- The go-cache sweep interval: `10*time.Minute`, in seconds. -/
def sweepInterval : Nat := 10 * 60

/-- One stored go-cache item: the value and its creation time. -/
structure CacheEntry where
  value : Db.WeatherData
  created : Nat
deriving DecidableEq, Repr

/-- The in-memory cache mapping, keyed by city string. -/
abbrev CacheMap := List (String × CacheEntry)

/-- Modelled from the spec: the third-party go-cache store backing
`internal/cache` is not under `src/`.  Per the spec, `Set(key, record)`
"unconditionally overwrites any existing entry for `key`, stamping a fresh
creation time; entry's effective TTL is 5 minutes from this call". -/
def cacheSet (m : CacheMap) (key : String) (v : Db.WeatherData) (now : Nat) : CacheMap :=
  (key, { value := v, created := now }) :: m.filter (fun p => p.1 ≠ key)

/-- Modelled from the spec: go-cache `Get` returns the record "and true only
if an entry exists for `key` and has not exceeded its TTL at the moment of
lookup"; entries inserted at `T` are retrievable in `[T, T+5min)` and not
retrievable at or after the TTL boundary. -/
def cacheGet (m : CacheMap) (key : String) (now : Nat) : Option Db.WeatherData :=
  match m.lookup key with
  | none => none
  | some e => if now < e.created + cacheTTL then some e.value else none

/-- Modelled from the spec: the periodic sweep "removes entries older than
the sweep interval ... independent of lookups". -/
def cacheSweep (m : CacheMap) (now : Nat) : CacheMap :=
  m.filter (fun p => now < p.2.created + cacheTTL)

end Cache

/-- The mutable world threaded through one or more handler invocations:
the cache contents, the durable store contents (one row per city), call
counters for each collaborator, and the emitted log lines (most recent
first). -/
structure World where
  cache : Cache.CacheMap
  store : List (String × Db.WeatherData)
  fetchCalls : Nat
  saveCalls : Nat
  setCalls : Nat
  logs : List LogLine
deriving DecidableEq, Repr

/-- `log.Info`: append an info-severity line. -/
def logInfo (w : World) (msg : String) : World :=
  { w with logs := (Severity.info, msg) :: w.logs }

/-- `log.Error`: append an error-severity line. -/
def logError (w : World) (msg : String) : World :=
  { w with logs := (Severity.error, msg) :: w.logs }

/-- Outcome oracles for the handler's two external collaborators: what
`weather.FetchWeather` returns for a given city, and whether
`db.SaveWeatherData`'s DynamoDB `PutItem` fails (`some err`) or succeeds
(`none`) for a given record. -/
structure Env where
  fetch : String → Except String Weather.WeatherResponse
  saveErr : Db.WeatherData → Option String

namespace Cache

/-- `cache.SetCache` from `src/app/internal/cache/cache.go`: log, then
`c.Set(key, value, cache.DefaultExpiration)`. -/
def SetCache (w : World) (key : String) (value : Db.WeatherData) (now : Nat) : World :=
  let w := logInfo w ("Setting cache for key: " ++ key)
  { w with cache := cacheSet w.cache key value now, setCalls := w.setCalls + 1 }

/-- `cache.GetCache` from `src/app/internal/cache/cache.go`: `c.Get(key)`,
logging hit or miss. -/
def GetCache (w : World) (key : String) (now : Nat) : Option Db.WeatherData × World :=
  match cacheGet w.cache key now with
  | some data => (some data, logInfo w ("Cache hit for key: " ++ key))
  | none => (none, logInfo w ("Cache miss for key: " ++ key))

end Cache

namespace Db

/-- Upsert one row keyed by city into the durable table (DynamoDB
`PutItem`: last write wins). -/
def storePut (store : List (String × WeatherData)) (data : WeatherData) :
    List (String × WeatherData) :=
  (data.city, data) :: store.filter (fun p => p.1 ≠ data.city)

/-- `db.SaveWeatherData` from `src/app/internal/db/db.go`: marshal the
record and `PutItem` it into the table named by `DB_TABLE_NAME`.  The
outcome of the DynamoDB call is the `env.saveErr` oracle; on failure the
error is logged and returned and the table is untouched, on success the
row is upserted. -/
def SaveWeatherData (env : Env) (w : World) (data : WeatherData) : Option String × World :=
  let w := { w with saveCalls := w.saveCalls + 1 }
  match env.saveErr data with
  | some e => (some e, logError w ("Error saving weather data to DynamoDB: " ++ e))
  | none =>
      let w := { w with store := storePut w.store data }
      (none, logInfo w ("Successfully saved weather data for city: " ++ data.city))

end Db

namespace GoJson

/-!
A model of the fragment of Go's `encoding/json` exercised by
`buildResponse`: marshalling a `db.WeatherData` (a struct of one string,
one finite float and one int — `Marshal` cannot fail on such a value, so
the dead error branch of `buildResponse` has no counterpart here), and
unmarshalling such a body back.  The decoder accepts the object in the
canonical field order `Marshal` produces.
-/

/-- The opening brace character. -/
def lbrace : Char := Char.ofNat 123

/-- The closing brace character. -/
def rbrace : Char := Char.ofNat 125

/-- Value of a hexadecimal digit character. -/
def hexVal (c : Char) : Option Nat :=
  if '0' ≤ c ∧ c ≤ '9' then some (c.toNat - 48)
  else if 'a' ≤ c ∧ c ≤ 'f' then some (c.toNat - 87)
  else if 'A' ≤ c ∧ c ≤ 'F' then some (c.toNat - 55)
  else none

/-- Lower-case hexadecimal digit for a value below 16, as Go emits in
`\u00XX` escapes. -/
def hexDigit (n : Nat) : String :=
  String.singleton (if n < 10 then Char.ofNat (48 + n) else Char.ofNat (87 + n))

/-- Go `encoding/json` string-escape of one character: quotes, backslash
and ASCII control characters are escaped, and `<`, `>`, `&` are
HTML-escaped as `<`, `>`, `&` (Go's default encoder). -/
def escapeChar (c : Char) : String :=
  if c = '"' then "\\\""
  else if c = '\\' then "\\\\"
  else if c = '\n' then "\\n"
  else if c = '\r' then "\\r"
  else if c = '\t' then "\\t"
  else if c = '<' then "\\u003c"
  else if c = '>' then "\\u003e"
  else if c = '&' then "\\u0026"
  else if c.toNat < 32 then "\\u00" ++ hexDigit (c.toNat / 16) ++ hexDigit (c.toNat % 16)
  else String.singleton c

/-- Go `encoding/json` encoding of a string value, quotes included. -/
def quoteGo (s : String) : String :=
  "\"" ++ String.join (s.toList.map escapeChar) ++ "\""

/-- Least `k` with `den ∣ 10^k`, searched up to 1100 (every float64,
embedded as a rational, has a power-of-two denominator of at most
`2^1074`, and `2^k ∣ 10^k`). -/
def decExp (den : Nat) : Option Nat :=
  (List.range 1100).find? (fun k => 10 ^ k % den = 0)

/-- Left-pad a digit string with zeros to width `k`. -/
def padZeros (s : String) (k : Nat) : String :=
  String.mk (List.replicate (k - s.length) '0') ++ s

/-- Decimal rendering of a rational with a terminating decimal expansion,
matching Go's shortest `%g`-style `json.Marshal` output for float64 values
such as `18.5 ↦ "18.5"` and `18 ↦ "18"` (minimality of the exponent from
`decExp` means the fraction carries no trailing zero). -/
def fmtRat (q : Rat) : String :=
  let sign := if q.num < 0 then "-" else ""
  let n := q.num.natAbs
  match decExp q.den with
  | some 0 => sign ++ toString n
  | some (k + 1) =>
      let scaled := n * 10 ^ (k + 1) / q.den
      let ip := scaled / 10 ^ (k + 1)
      let fp := scaled % 10 ^ (k + 1)
      sign ++ toString ip ++ "." ++ padZeros (toString fp) (k + 1)
  | none => sign ++ toString n ++ "/" ++ toString q.den

/-- Decode a JSON string body after the opening quote: returns the decoded
characters and the input remaining after the closing quote.  Handles the
standard escapes and 4-digit `\u` escapes (surrogate pairs are out of the
range Go emits for this record and are not recombined). -/
def parseStringBody : List Char → Option (List Char × List Char)
  | [] => none
  | c :: rest =>
    if c = '"' then some ([], rest)
    else if c = '\\' then
      match rest with
      | [] => none
      | e :: rest2 =>
        if e = '"' ∨ e = '\\' ∨ e = '/' then
          (parseStringBody rest2).map (fun p => (e :: p.1, p.2))
        else if e = 'b' then (parseStringBody rest2).map (fun p => (Char.ofNat 8 :: p.1, p.2))
        else if e = 'f' then (parseStringBody rest2).map (fun p => (Char.ofNat 12 :: p.1, p.2))
        else if e = 'n' then (parseStringBody rest2).map (fun p => ('\n' :: p.1, p.2))
        else if e = 'r' then (parseStringBody rest2).map (fun p => ('\r' :: p.1, p.2))
        else if e = 't' then (parseStringBody rest2).map (fun p => ('\t' :: p.1, p.2))
        else if e = 'u' then
          match rest2 with
          | h1 :: h2 :: h3 :: h4 :: rest3 =>
            match hexVal h1, hexVal h2, hexVal h3, hexVal h4 with
            | some a, some b, some c3, some d =>
                (parseStringBody rest3).map
                  (fun p => (Char.ofNat (((a * 16 + b) * 16 + c3) * 16 + d) :: p.1, p.2))
            | _, _, _, _ => none
          | _ => none
        else none
    else (parseStringBody rest).map (fun p => (c :: p.1, p.2))

/-- Split a leading run of decimal digits from the input. -/
def takeDigits : List Char → List Char × List Char
  | [] => ([], [])
  | c :: rest =>
    if c.isDigit then
      let p := takeDigits rest
      (c :: p.1, p.2)
    else ([], c :: rest)

/-- Numeric value of a digit run. -/
def digitsToNat (l : List Char) : Nat :=
  l.foldl (fun acc c => acc * 10 + (c.toNat - 48)) 0

/-- Parse a JSON number (optional sign, integer part, optional fraction,
optional exponent) into a rational. -/
def parseNumber (l : List Char) : Option (Rat × List Char) :=
  let signAndRest : Bool × List Char :=
    match l with
    | '-' :: r => (true, r)
    | _ => (false, l)
  let neg := signAndRest.1
  let l1 := signAndRest.2
  let ipAndRest := takeDigits l1
  if ipAndRest.1 = [] then none
  else
    let fracAndRest : Option (List Char × List Char) :=
      match ipAndRest.2 with
      | '.' :: r =>
          let p := takeDigits r
          if p.1 = [] then none else some (p.1, p.2)
      | _ => some ([], ipAndRest.2)
    match fracAndRest with
    | none => none
    | some (frac, l2) =>
      let expAndRest : Option (Int × List Char) :=
        match l2 with
        | e :: r =>
          if e = 'e' ∨ e = 'E' then
            match r with
            | '-' :: r2 =>
                let p := takeDigits r2
                if p.1 = [] then none else some (-(digitsToNat p.1 : Int), p.2)
            | '+' :: r2 =>
                let p := takeDigits r2
                if p.1 = [] then none else some ((digitsToNat p.1 : Int), p.2)
            | _ =>
                let p := takeDigits r
                if p.1 = [] then none else some ((digitsToNat p.1 : Int), p.2)
          else some (0, l2)
        | [] => some (0, l2)
      match expAndRest with
      | none => none
      | some (ex, l3) =>
        let digits := digitsToNat (ipAndRest.1 ++ frac)
        let num : Int := if neg then -(digits : Int) else (digits : Int)
        let value : Rat :=
          if 0 ≤ ex then
            mkRat (num * ((10 ^ ex.toNat : Nat) : Int)) (10 ^ frac.length)
          else
            mkRat num (10 ^ frac.length * 10 ^ (-ex).toNat)
        some (value, l3)

/-- Drop leading JSON whitespace. -/
def skipWs (l : List Char) : List Char :=
  l.dropWhile (fun c => c = ' ' ∨ c = '\n' ∨ c = '\t' ∨ c = '\r')

/-- Expect one specific character (after whitespace). -/
def expectChar (c : Char) (l : List Char) : Option (List Char) :=
  match skipWs l with
  | x :: r => if x = c then some r else none
  | [] => none

/-- Expect the object key `name` followed by a colon. -/
def expectKey (name : String) (l : List Char) : Option (List Char) := do
  let l ← expectChar '"' l
  let (key, l) ← parseStringBody l
  if key = name.toList then expectChar ':' l else none

/-- Go `json.Unmarshal` of a `db.WeatherData` body in the canonical field
order `Marshal` produces: `Humidity` must decode to an integer (Go errors
when unmarshalling a fractional number into `int`), and no input may
remain after the closing brace. -/
def unmarshalWeatherData (s : String) : Option Db.WeatherData := do
  let l ← expectChar lbrace s.toList
  let l ← expectKey "City" l
  let l ← expectChar '"' l
  let (city, l) ← parseStringBody l
  let l ← expectChar ',' l
  let l ← expectKey "Temperature" l
  let (temp, l) ← parseNumber (skipWs l)
  let l ← expectChar ',' l
  let l ← expectKey "Humidity" l
  let (hum, l) ← parseNumber (skipWs l)
  if hum.den = 1 then
    let l ← expectChar rbrace l
    if skipWs l = [] then
      some { city := String.mk city, temperature := temp, humidity := hum.num }
    else none
  else none

end GoJson

namespace Handler

/-- `events.APIGatewayProxyRequest`, restricted to the one field the handler
reads: the query-string parameter map. -/
structure APIGatewayProxyRequest where
  queryStringParameters : List (String × String)
deriving DecidableEq, Repr

/-- `events.APIGatewayProxyResponse`, restricted to the fields the handler
sets: status code and body (Go zero value `""` when unset). -/
structure APIGatewayProxyResponse where
  statusCode : Int
  body : String := ""
deriving DecidableEq, Repr

/-- JSON-encode a `db.WeatherData` the way Go's `json.Marshal` does for this
struct (field order `City`, `Temperature`, `Humidity` per the tags); the
string/number encoders are defined below with the round-trip development
and named here via `GoJson.marshalWeatherData`. -/
def marshalWeatherData (d : Db.WeatherData) : String :=
  "\x7b\"City\":" ++ GoJson.quoteGo d.city ++
    ",\"Temperature\":" ++ GoJson.fmtRat d.temperature ++
    ",\"Humidity\":" ++ toString d.humidity ++ "\x7d"

/-- `buildResponse` from `src/app/internal/handler/handler.go`: marshal the
record and answer 200 with the body.  `json.Marshal` cannot fail on a
`db.WeatherData` (string, finite float, int), so the source's 500-on-
marshal-error branch is dead and has no reachable counterpart. -/
def buildResponse (w : World) (data : Db.WeatherData) : APIGatewayProxyResponse × World :=
  ({ statusCode := 200, body := marshalWeatherData data }, w)

/-- The `db.WeatherData` the handler builds from a fetched upstream
response for a given city (`dbData` in the source). -/
def mkDbData (city : String) (resp : Weather.WeatherResponse) : Db.WeatherData :=
  { city := city
    temperature := resp.data.values.temperature
    humidity := resp.data.values.humidity }

/-- `HandleRequest` from `src/app/internal/handler/handler.go`: read the
`city` query parameter (Go map access yields `""` when absent), reject the
empty city with 400, try the cache, otherwise fetch upstream, persist to
DynamoDB, populate the cache and respond.  `env` supplies the collaborator
outcomes, `now` the current time, `w` the pre-request world. -/
def HandleRequest (env : Env) (now : Nat) (request : APIGatewayProxyRequest)
    (w : World) : APIGatewayProxyResponse × World :=
  let city := (request.queryStringParameters.lookup "city").getD ""
  if city = "" then
    ({ statusCode := 400 }, logError w "City parameter is required")
  else
    match Cache.GetCache w city now with
    | (some cachedData, w) =>
        buildResponse (logInfo w ("Returning cached data for city: " ++ city)) cachedData
    | (none, w) =>
      let w := { w with fetchCalls := w.fetchCalls + 1 }
      match env.fetch city with
      | Except.error e =>
          ({ statusCode := 500 }, logError w ("Error fetching weather data: " ++ e))
      | Except.ok weatherResponse =>
        let w := logInfo w ("WeatherData for city: " ++ city)
        let w := logInfo w ("WeatherLocation for city: " ++ city)
        let dbData := mkDbData city weatherResponse
        let w := logInfo w ("Saving to DynamoDB")
        match Db.SaveWeatherData env w dbData with
        | (some e, w) =>
            ({ statusCode := 500 },
              logError w ("Error saving weather data to DynamoDB: " ++ e))
        | (none, w) =>
            let w := Cache.SetCache w city dbData now
            buildResponse (logInfo w ("Returning new data for city: " ++ city)) dbData

end Handler

namespace Weather

/-- An outbound HTTP request as built by `http.NewRequest` plus
`Header.Add`. -/
structure HttpRequest where
  method : String
  url : String
  headers : List (String × String)
deriving DecidableEq, Repr

/-- An HTTP response as seen by the client: status code and raw body. -/
structure HttpResponse where
  statusCode : Int
  body : String
deriving DecidableEq, Repr

/-- Collaborator oracles for `FetchWeather`: the process environment
(`os.Getenv`), the transport (`http.DefaultClient.Do`), and the JSON
decoding of an upstream body into a `WeatherResponse`
(`json.NewDecoder(resp.Body).Decode`). -/
structure HttpEnv where
  getenv : String → String
  doRequest : HttpRequest → Except String HttpResponse
  decodeBody : String → Except String WeatherResponse

/-- Observable side effects of one `FetchWeather` call: how many outbound
HTTP requests were issued and how many body decodes were attempted. -/
structure FetchTrace where
  httpCalls : Nat
  decodeCalls : Nat
deriving DecidableEq, Repr

/-- Outcome of running a piece of Go code: a normal result, or a runtime
panic (e.g. a nil pointer dereference). -/
inductive GoOutcome (α : Type) where
  | ok : α → GoOutcome α
  | panicked : String → GoOutcome α
deriving DecidableEq, Repr

/-- The request URL `FetchWeather` formats. -/
def fetchURL (city apiKey : String) : String :=
  "https://api.tomorrow.io/v4/weather/realtime?location=" ++ city ++ "&apikey=" ++ apiKey

/-- Whether a URL string contains an ASCII control character, the case in
which Go's `url.Parse` (and hence `http.NewRequest`) rejects it. -/
def hasCtlChar (s : String) : Bool :=
  s.toList.any (fun c => c.toNat < 32 ∨ c.toNat = 127)

/-- `http.NewRequest`: `none` models the `(nil, err)` return for an invalid
URL; the error value is discarded by the caller (`req, _ :=`). -/
def NewRequest (method url : String) : Option HttpRequest :=
  if hasCtlChar url then none else some { method := method, url := url, headers := [] }

/-- `weather.FetchWeather`, current version (`src/unnamed/part_006`; the
copy under `src/internal` is a historical variant without the API-key and
status checks): require a non-empty `WEATHER_API_KEY`, build the request —
discarding `http.NewRequest`'s error, so an invalid URL leaves `req` nil
and the following `req.Header.Add` dereferences a nil pointer — send it,
reject non-2xx statuses, and decode the body. -/
def FetchWeather (env : HttpEnv) (city : String) :
    GoOutcome (Except String WeatherResponse) × FetchTrace :=
  let t0 : FetchTrace := { httpCalls := 0, decodeCalls := 0 }
  let apiKey := env.getenv "WEATHER_API_KEY"
  if apiKey = "" then
    (GoOutcome.ok (Except.error "WEATHER_API_KEY is required"), t0)
  else
    let url := fetchURL city apiKey
    match NewRequest "GET" url with
    | none =>
        (GoOutcome.panicked "runtime error: invalid memory address or nil pointer dereference",
          t0)
    | some req =>
      let req := { req with headers := ("Accept", "application/json") :: req.headers }
      let t1 : FetchTrace := { httpCalls := 1, decodeCalls := 0 }
      match env.doRequest req with
      | Except.error e => (GoOutcome.ok (Except.error e), t1)
      | Except.ok resp =>
        if resp.statusCode < 200 ∨ 300 ≤ resp.statusCode then
          (GoOutcome.ok
            (Except.error ("received response with status code: " ++ toString resp.statusCode)),
            t1)
        else
          let t2 : FetchTrace := { httpCalls := 1, decodeCalls := 1 }
          match env.decodeBody resp.body with
          | Except.error e => (GoOutcome.ok (Except.error e), t2)
          | Except.ok weatherResponse => (GoOutcome.ok (Except.ok weatherResponse), t2)

end Weather

/-! Concrete fixtures used to instantiate the theorems below. -/

/-- A concrete upstream values record (temperature 18.5, humidity 60). -/
def sampleValues : Weather.WeatherDataValues :=
  { cloudBase := none, cloudCeiling := none, cloudCover := 10, dewPoint := 12,
    freezingRainIntensity := 0, humidity := 60, precipitationProbability := 5,
    pressureSurfaceLevel := 1013, rainIntensity := 0, sleetIntensity := 0,
    snowIntensity := 0, temperature := mkRat 37 2, temperatureApparent := 18,
    uvHealthConcern := 0, uvIndex := 3, visibility := 16, weatherCode := 1000,
    windDirection := 270, windGust := 7, windSpeed := 4 }

/-- A concrete upstream response for Seattle. -/
def sampleResponse : Weather.WeatherResponse :=
  { data := { time := "2024-01-01T00:00:00Z", values := sampleValues },
    location := { lat := 47.6, lon := -122.3, name := "Seattle", type := "administrative" } }

/-- Collaborators that always succeed. -/
def envOk : Env :=
  { fetch := fun _ => Except.ok sampleResponse, saveErr := fun _ => none }

/-- Collaborators whose upstream fetch always fails. -/
def envFetchFail : Env :=
  { fetch := fun _ => Except.error "connection refused", saveErr := fun _ => none }

/-- Collaborators whose persistence write always fails. -/
def envSaveFail : Env :=
  { fetch := fun _ => Except.ok sampleResponse,
    saveErr := fun _ => some "ProvisionedThroughputExceededException" }

/-- The world of a cold process: empty cache and store, no calls, no logs. -/
def emptyWorld : World :=
  { cache := [], store := [], fetchCalls := 0, saveCalls := 0, setCalls := 0, logs := [] }

/-- A request carrying `?city=c`. -/
def reqCity (c : String) : Handler.APIGatewayProxyRequest :=
  { queryStringParameters := [("city", c)] }

/-- An HTTP environment whose API key is unset (`os.Getenv` yields `""`). -/
def envKeyUnset : Weather.HttpEnv :=
  { getenv := fun _ => "",
    doRequest := fun _ => Except.error "unreachable",
    decodeBody := fun _ => Except.error "unreachable" }

/-- An HTTP environment that answers every request with a 404. -/
def envHttp404 : Weather.HttpEnv :=
  { getenv := fun _ => "k",
    doRequest := fun _ => Except.ok { statusCode := 404, body := "not found" },
    decodeBody := fun _ => Except.error "unreachable" }

/-- An HTTP environment with a configured key and a failing transport. -/
def envKeySet : Weather.HttpEnv :=
  { getenv := fun _ => "k",
    doRequest := fun _ => Except.error "connection refused",
    decodeBody := fun _ => Except.error "bad body" }

/-- A city name containing an ASCII control character (a line feed), which
makes the formatted request URL invalid for `url.Parse`. -/
def ctlCity : String := "Sea" ++ String.singleton (Char.ofNat 10) ++ "ttle"

/-! Helper lemmas shared by the claim theorems. -/

/-- Looking up the key just set returns the fresh entry. -/
theorem lookup_cacheSet_self (m : Cache.CacheMap) (k : String) (v : Db.WeatherData)
    (T : Nat) :
    (Cache.cacheSet m k v T).lookup k = some { value := v, created := T } := by
  simp [Cache.cacheSet, List.lookup]

/-- A get after a set of the same key hits exactly within the TTL. -/
theorem cacheGet_cacheSet_self (m : Cache.CacheMap) (k : String) (v : Db.WeatherData)
    (T t : Nat) :
    Cache.cacheGet (Cache.cacheSet m k v T) k t =
      if t < T + Cache.cacheTTL then some v else none := by
  simp [Cache.cacheGet, lookup_cacheSet_self]

/-- Claim C6: an entry inserted by `Set` at time `T` is returned by every
`Get` in `[T, T+5min)`, is not returned at or after the TTL boundary, and
`Set` unconditionally overwrites any existing entry for the key, restarting
its 5-minute TTL from the time of the call. -/
theorem cacheTTLSemantics (m : Cache.CacheMap) (k : String) (v : Db.WeatherData)
    (T t : Nat) :
    (T ≤ t → t < T + Cache.cacheTTL →
        Cache.cacheGet (Cache.cacheSet m k v T) k t = some v) ∧
    (T + Cache.cacheTTL ≤ t →
        Cache.cacheGet (Cache.cacheSet m k v T) k t = none) ∧
    (Cache.cacheSet m k v T).lookup k = some { value := v, created := T } := by
  refine ⟨fun _ hlt => ?_, fun hge => ?_, lookup_cacheSet_self m k v T⟩
  · rw [cacheGet_cacheSet_self, if_pos hlt]
  · rw [cacheGet_cacheSet_self, if_neg (by omega)]

/-- Witness for C6: on an entry set at `T = 0`, a lookup at `t = 299` hits
and a lookup at `t = 300` (the TTL boundary) misses, and the entry of an
overwritten key carries the fresh creation time. -/
theorem cacheTTLSemanticsWitness :
    Cache.cacheGet (Cache.cacheSet [] "Seattle" { city := "Seattle", temperature := 18.5, humidity := 60 } 0) "Seattle" 299 =
      some { city := "Seattle", temperature := 18.5, humidity := 60 } ∧
    Cache.cacheGet (Cache.cacheSet [] "Seattle" { city := "Seattle", temperature := 18.5, humidity := 60 } 0) "Seattle" 300 = none ∧
    (Cache.cacheSet [] "Seattle" { city := "Seattle", temperature := 18.5, humidity := 60 } 0).lookup "Seattle" =
      some { value := { city := "Seattle", temperature := 18.5, humidity := 60 }, created := 0 } :=
  ⟨(cacheTTLSemantics [] "Seattle" _ 0 299).1 (by omega) (by decide),
    (cacheTTLSemantics [] "Seattle" _ 0 300).2.1 (by decide),
    (cacheTTLSemantics [] "Seattle" _ 0 300).2.2⟩

/-- Claim C7: `FetchWeather` fails fast with the configuration error
`WEATHER_API_KEY is required`, issuing no outbound HTTP request (and
attempting no decode), whenever the API key environment value is unset or
empty. -/
theorem fetchFailsFastWithoutKey (env : Weather.HttpEnv) (city : String)
    (hk : env.getenv "WEATHER_API_KEY" = "") :
    Weather.FetchWeather env city =
      (Weather.GoOutcome.ok (Except.error "WEATHER_API_KEY is required"),
        { httpCalls := 0, decodeCalls := 0 }) := by
  simp [Weather.FetchWeather, hk]

/-- Witness for C7: with an empty `WEATHER_API_KEY`, fetching Seattle
produces the configuration error and zero HTTP calls. -/
theorem fetchFailsFastWithoutKeyWitness :
    Weather.FetchWeather envKeyUnset "Seattle" =
      (Weather.GoOutcome.ok (Except.error "WEATHER_API_KEY is required"),
        { httpCalls := 0, decodeCalls := 0 }) :=
  fetchFailsFastWithoutKey envKeyUnset "Seattle" rfl

/-- Claim C8: `FetchWeather` treats every HTTP response status outside
`[200,299]` as a fetch error carrying the received status code, returned
without attempting to decode the body. -/
theorem fetchNon2xxIsError (env : Weather.HttpEnv) (city : String)
    (resp : Weather.HttpResponse)
    (hk : env.getenv "WEATHER_API_KEY" ≠ "")
    (hurl : Weather.hasCtlChar
      (Weather.fetchURL city (env.getenv "WEATHER_API_KEY")) = false)
    (hdo : env.doRequest
      { method := "GET",
        url := Weather.fetchURL city (env.getenv "WEATHER_API_KEY"),
        headers := [("Accept", "application/json")] } = Except.ok resp)
    (hst : resp.statusCode < 200 ∨ 300 ≤ resp.statusCode) :
    Weather.FetchWeather env city =
      (Weather.GoOutcome.ok (Except.error
          ("received response with status code: " ++ toString resp.statusCode)),
        { httpCalls := 1, decodeCalls := 0 }) := by
  simp [Weather.FetchWeather, hk, Weather.NewRequest, hurl, hdo, hst]

/-- Witness for C8: a 404 from the transport yields the status-code error
with one HTTP call and zero decode attempts. -/
theorem fetchNon2xxIsErrorWitness :
    Weather.FetchWeather envHttp404 "Seattle" =
      (Weather.GoOutcome.ok (Except.error "received response with status code: 404"),
        { httpCalls := 1, decodeCalls := 0 }) :=
  fetchNon2xxIsError envHttp404 "Seattle" { statusCode := 404, body := "not found" }
    (by decide) rfl rfl (by decide)

set_option maxRecDepth 8000

/-- Claim C9: marshalling the record `⟨"Seattle", 18.5, 60⟩` to the success
response body and unmarshalling it back yields a record equal to the
original. -/
theorem marshalRoundTrip :
    GoJson.unmarshalWeatherData
        (Handler.marshalWeatherData { city := "Seattle", temperature := 18.5, humidity := 60 }) =
      some { city := "Seattle", temperature := 18.5, humidity := 60 } := by
  have h : (18.5 : Rat) = mkRat 37 2 := by rw [Rat.mkRat_eq_div]; norm_num
  rw [h]
  decide

/-- Claim C10 (code bug): `FetchWeather` discards `http.NewRequest`'s
error, so for a city containing a control character (here a line feed) the
subsequent `req.Header.Add` dereferences a nil request and the call
panics instead of returning an error — evaluated here at the failing
input. -/
theorem fetchPanicsOnCtlCity :
    Weather.FetchWeather envKeySet ctlCity =
      (Weather.GoOutcome.panicked
          "runtime error: invalid memory address or nil pointer dereference",
        { httpCalls := 0, decodeCalls := 0 }) := by
  rfl

/-- Claim C1: for a request whose upstream fetch succeeds but whose
persistence write fails, the handler returns 500 and the cache is left
untouched, still holding no entry for the request's key — persistence
success gates cache population. -/
theorem persistenceGatesCache (env : Env) (now : Nat)
    (req : Handler.APIGatewayProxyRequest) (w : World) (c : String)
    (resp : Weather.WeatherResponse) (e : String)
    (hc : (req.queryStringParameters.lookup "city").getD "" = c)
    (hne : c ≠ "")
    (hmiss : Cache.cacheGet w.cache c now = none)
    (hf : env.fetch c = Except.ok resp)
    (hs : env.saveErr (Handler.mkDbData c resp) = some e) :
    (Handler.HandleRequest env now req w).1.statusCode = 500 ∧
    (Handler.HandleRequest env now req w).2.cache = w.cache ∧
    Cache.cacheGet (Handler.HandleRequest env now req w).2.cache c now = none := by
  simp only [Handler.HandleRequest, hc, hne, Cache.GetCache, hmiss, hf,
    Db.SaveWeatherData, hs, logInfo, logError, if_false, ite_false]
  exact ⟨trivial, trivial, trivial⟩

/-- Witness for C1: failing DynamoDB on a cold cache yields a 500 and an
unchanged (empty) cache for Seattle. -/
theorem persistenceGatesCacheWitness :
    (Handler.HandleRequest envSaveFail 0 (reqCity "Seattle") emptyWorld).1.statusCode = 500 ∧
    (Handler.HandleRequest envSaveFail 0 (reqCity "Seattle") emptyWorld).2.cache = emptyWorld.cache ∧
    Cache.cacheGet (Handler.HandleRequest envSaveFail 0 (reqCity "Seattle") emptyWorld).2.cache
      "Seattle" 0 = none :=
  persistenceGatesCache envSaveFail 0 (reqCity "Seattle") emptyWorld "Seattle"
    sampleResponse "ProvisionedThroughputExceededException" rfl (by decide) rfl rfl rfl

/-- Claim C5: when the upstream fetch fails for a non-empty city on a cache
miss, the handler returns 500, the cache is unchanged (so it still holds no
entry for the key) and no persistence write occurs. -/
theorem fetchFailureNoResidue (env : Env) (now : Nat)
    (req : Handler.APIGatewayProxyRequest) (w : World) (c : String) (e : String)
    (hc : (req.queryStringParameters.lookup "city").getD "" = c)
    (hne : c ≠ "")
    (hmiss : Cache.cacheGet w.cache c now = none)
    (hf : env.fetch c = Except.error e) :
    (Handler.HandleRequest env now req w).1.statusCode = 500 ∧
    (Handler.HandleRequest env now req w).2.cache = w.cache ∧
    Cache.cacheGet (Handler.HandleRequest env now req w).2.cache c now = none ∧
    (Handler.HandleRequest env now req w).2.saveCalls = w.saveCalls := by
  simp only [Handler.HandleRequest, hc, hne, Cache.GetCache, hmiss, hf,
    logInfo, logError, if_false, ite_false]
  exact ⟨trivial, trivial, trivial, trivial⟩

/-- Witness for C5: a refused connection on a cold cache yields a 500, an
unchanged cache and zero persistence writes. -/
theorem fetchFailureNoResidueWitness :
    (Handler.HandleRequest envFetchFail 0 (reqCity "Seattle") emptyWorld).1.statusCode = 500 ∧
    (Handler.HandleRequest envFetchFail 0 (reqCity "Seattle") emptyWorld).2.cache = emptyWorld.cache ∧
    Cache.cacheGet (Handler.HandleRequest envFetchFail 0 (reqCity "Seattle") emptyWorld).2.cache
      "Seattle" 0 = none ∧
    (Handler.HandleRequest envFetchFail 0 (reqCity "Seattle") emptyWorld).2.saveCalls =
      emptyWorld.saveCalls :=
  fetchFailureNoResidue envFetchFail 0 (reqCity "Seattle") emptyWorld "Seattle"
    "connection refused" rfl (by decide) rfl rfl

/-- Claim C4: whenever the handler answers 500 — which happens exactly on a
post-validation failure (upstream fetch or persistence; response
serialization cannot fail on a `db.WeatherData`) — neither the cache nor
the durable store is mutated.  This is stronger than the claim's wording:
no successful persistence write can precede a later failing stage, so even
the claim's carve-out for the persistence write itself is never needed. -/
theorem no500Mutation (env : Env) (now : Nat)
    (req : Handler.APIGatewayProxyRequest) (w : World)
    (h : (Handler.HandleRequest env now req w).1.statusCode = 500) :
    (Handler.HandleRequest env now req w).2.cache = w.cache ∧
    (Handler.HandleRequest env now req w).2.store = w.store := by
  by_cases hc : (req.queryStringParameters.lookup "city").getD "" = ""
  · simp only [Handler.HandleRequest, hc, ite_true, if_true] at h
    exact absurd h (by decide)
  · cases hget : Cache.cacheGet w.cache
        ((req.queryStringParameters.lookup "city").getD "") now with
    | some d =>
        simp only [Handler.HandleRequest, hc, Cache.GetCache, hget, if_false, ite_false,
          Handler.buildResponse, logInfo] at h
        exact absurd h (by decide)
    | none =>
        cases hf : env.fetch ((req.queryStringParameters.lookup "city").getD "") with
        | error e =>
            simp only [Handler.HandleRequest, hc, Cache.GetCache, hget, hf, if_false,
              ite_false, logInfo, logError]
            exact ⟨trivial, trivial⟩
        | ok resp =>
            cases hs : env.saveErr
                (Handler.mkDbData ((req.queryStringParameters.lookup "city").getD "") resp) with
            | some e =>
                simp only [Handler.HandleRequest, hc, Cache.GetCache, hget, hf,
                  Db.SaveWeatherData, hs, if_false, ite_false, logInfo, logError]
                exact ⟨trivial, trivial⟩
            | none =>
                simp only [Handler.HandleRequest, hc, Cache.GetCache, hget, hf,
                  Db.SaveWeatherData, hs, if_false, ite_false, logInfo, logError,
                  Cache.SetCache, Handler.buildResponse] at h
                exact absurd h (by decide)

/-- Witness for C4: the failing-fetch run answers 500 and leaves the empty
cache and store untouched. -/
theorem no500MutationWitness :
    (Handler.HandleRequest envFetchFail 0 (reqCity "Seattle") emptyWorld).2.cache =
      emptyWorld.cache ∧
    (Handler.HandleRequest envFetchFail 0 (reqCity "Seattle") emptyWorld).2.store =
      emptyWorld.store :=
  no500Mutation envFetchFail 0 (reqCity "Seattle") emptyWorld rfl

/-- Counterexample for C3 as stated: the whitespace-only city `" "` is not
rejected — the handler proceeds to the upstream fetch (one fetch call and,
with healthy collaborators, a 200) — and the genuinely empty city is
logged at error severity, not as a warning-level note. -/
theorem whitespaceCityNotRejected :
    (Handler.HandleRequest envOk 0 (reqCity " ") emptyWorld).1.statusCode = 200 ∧
    (Handler.HandleRequest envOk 0 (reqCity " ") emptyWorld).2.fetchCalls = 1 ∧
    (Handler.HandleRequest envOk 0 (reqCity "") emptyWorld).2.logs =
      [(Severity.error, "City parameter is required")] :=
  ⟨rfl, rfl, rfl⟩

/-- Claim C3 (amended): for a missing or empty — but not whitespace-only —
`city` parameter, the handler returns 400 with no body and performs no
fetch, persistence, cache or store interaction at all, its only side
effect being a rejection line logged at error severity (the log package
has no warning channel). -/
theorem emptyCityRejected (env : Env) (now : Nat)
    (req : Handler.APIGatewayProxyRequest) (w : World)
    (hc : (req.queryStringParameters.lookup "city").getD "" = "") :
    (Handler.HandleRequest env now req w).1 = { statusCode := 400, body := "" } ∧
    (Handler.HandleRequest env now req w).2 =
      { w with logs := (Severity.error, "City parameter is required") :: w.logs } := by
  simp only [Handler.HandleRequest, hc, ite_true, if_true, logError]
  exact ⟨trivial, trivial⟩

/-- Witness for C3 (amended): a request with `city=` on a cold world. -/
theorem emptyCityRejectedWitness :
    (Handler.HandleRequest envOk 0 (reqCity "") emptyWorld).1 =
      { statusCode := 400, body := "" } ∧
    (Handler.HandleRequest envOk 0 (reqCity "") emptyWorld).2 =
      { emptyWorld with
          logs := (Severity.error, "City parameter is required") :: emptyWorld.logs } :=
  emptyCityRejected envOk 0 (reqCity "") emptyWorld rfl

/-- Counterexample for C2 as stated: with an upstream that always fails,
two consecutive `Handle` calls for the non-empty city `"a"` one second
apart (well inside any TTL window) each invoke the upstream fetch — two
fetches, not at most one. -/
theorem twoFailedCallsFetchTwice :
    (Handler.HandleRequest envFetchFail 1 (reqCity "a")
        (Handler.HandleRequest envFetchFail 0 (reqCity "a") emptyWorld).2).2.fetchCalls = 2 :=
  rfl

/-- Claim C2 (amended): for a non-empty city whose first call is a cache
miss that completes fetch and persist successfully, a second call within
the 5-minute TTL window of that write is answered entirely from the
cache: across the two calls the upstream fetch and the persistence write
are each invoked exactly once, and the second call returns 200 with the
cached record serialized as its body, identical to the first call's
body. -/
theorem secondCallServedFromCache (env : Env) (t1 t2 : Nat)
    (req : Handler.APIGatewayProxyRequest) (w : World) (c : String)
    (resp : Weather.WeatherResponse)
    (hc : (req.queryStringParameters.lookup "city").getD "" = c)
    (hne : c ≠ "")
    (hmiss : Cache.cacheGet w.cache c t1 = none)
    (hf : env.fetch c = Except.ok resp)
    (hs : env.saveErr (Handler.mkDbData c resp) = none)
    (ht : t2 < t1 + Cache.cacheTTL) :
    (Handler.HandleRequest env t1 req w).1.statusCode = 200 ∧
    (Handler.HandleRequest env t2 req (Handler.HandleRequest env t1 req w).2).1.statusCode = 200 ∧
    (Handler.HandleRequest env t2 req (Handler.HandleRequest env t1 req w).2).1.body =
      Handler.marshalWeatherData (Handler.mkDbData c resp) ∧
    (Handler.HandleRequest env t2 req (Handler.HandleRequest env t1 req w).2).1.body =
      (Handler.HandleRequest env t1 req w).1.body ∧
    (Handler.HandleRequest env t2 req (Handler.HandleRequest env t1 req w).2).2.fetchCalls =
      w.fetchCalls + 1 ∧
    (Handler.HandleRequest env t2 req (Handler.HandleRequest env t1 req w).2).2.saveCalls =
      w.saveCalls + 1 := by
  simp only [Handler.HandleRequest, hc, hne, Cache.GetCache, hmiss, hf,
    Db.SaveWeatherData, hs, Cache.SetCache, Handler.buildResponse, logInfo, logError,
    cacheGet_cacheSet_self, ht, if_true, ite_true, if_false, ite_false]
  exact ⟨trivial, trivial, trivial, trivial, trivial, trivial⟩

/-- Witness for C2 (amended): a cold-cache Seattle call at `t = 0` followed
by one at `t = 5` fetches and persists once in total, the second answered
from cache. -/
theorem secondCallServedFromCacheWitness :
    (Handler.HandleRequest envOk 0 (reqCity "Seattle") emptyWorld).1.statusCode = 200 ∧
    (Handler.HandleRequest envOk 5 (reqCity "Seattle")
        (Handler.HandleRequest envOk 0 (reqCity "Seattle") emptyWorld).2).1.statusCode = 200 ∧
    (Handler.HandleRequest envOk 5 (reqCity "Seattle")
        (Handler.HandleRequest envOk 0 (reqCity "Seattle") emptyWorld).2).1.body =
      Handler.marshalWeatherData (Handler.mkDbData "Seattle" sampleResponse) ∧
    (Handler.HandleRequest envOk 5 (reqCity "Seattle")
        (Handler.HandleRequest envOk 0 (reqCity "Seattle") emptyWorld).2).1.body =
      (Handler.HandleRequest envOk 0 (reqCity "Seattle") emptyWorld).1.body ∧
    (Handler.HandleRequest envOk 5 (reqCity "Seattle")
        (Handler.HandleRequest envOk 0 (reqCity "Seattle") emptyWorld).2).2.fetchCalls =
      emptyWorld.fetchCalls + 1 ∧
    (Handler.HandleRequest envOk 5 (reqCity "Seattle")
        (Handler.HandleRequest envOk 0 (reqCity "Seattle") emptyWorld).2).2.saveCalls =
      emptyWorld.saveCalls + 1 :=
  secondCallServedFromCache envOk 0 5 (reqCity "Seattle") emptyWorld "Seattle"
    sampleResponse rfl (by decide) rfl rfl rfl (by decide)
